import Mathlib

/-!
# Verification of mini-interaction's interaction-response lifecycle and
# component value resolution

Shallow embedding of the interaction façades of `mini-interaction`
(`src/utils/ContextMenuInteraction.ts`, `src/utils/MessageComponentInteraction.ts`,
`src/utils/ModalSubmitInteraction.ts`, `src/utils/interactionMessageHelpers.ts`)
and proofs of the specification claims about them.

Modelling conventions:
* JavaScript `undefined`/optional values become `Option`.
* JavaScript objects used as string-keyed maps (the resolved entity maps)
  become association lists `List (String × α)` with first-wins lookup.
* JavaScript truthiness, where the source relies on it (`if (result) return
  result;`, `flags ? { flags } : undefined`, `!value`), is embedded
  explicitly: a `String` is truthy iff non-empty, a `Nat` flag iff nonzero,
  arrays and objects are always truthy.
* A `throw new Error(msg)` becomes `Except.error msg`.
* The mutable closure variables `capturedResponse` / `isDeferred` become an
  explicit state threaded through each method; the optional helper
  callbacks `onAck` / `sendFollowUp` are modelled by presence flags plus an
  explicit list of emitted effects.
-/

/-- Discord interaction response type tags (`InteractionResponseType` from
`discord-api-types/v10`), restricted to the variants this library produces. -/
inductive InteractionResponseType where
  | Pong
  | ChannelMessageWithSource
  | DeferredChannelMessageWithSource
  | DeferredMessageUpdate
  | UpdateMessage
  | Modal
deriving DecidableEq, Repr

/-- Numeric wire codes of the response types, fixed by Discord's schema. -/
def InteractionResponseType.code : InteractionResponseType → Nat
  | .Pong => 1
  | .ChannelMessageWithSource => 4
  | .DeferredChannelMessageWithSource => 5
  | .DeferredMessageUpdate => 6
  | .UpdateMessage => 7
  | .Modal => 9

/-- `InteractionMessageData` / `APIInteractionResponseCallbackData`: the
message payload accepted by `reply`/`update`.  Only the fields the embedded
code paths can observe are modelled (`content` as the representative
content-bearing field, and `flags`, which `normaliseInteractionMessageData`
inspects); every field is optional, so `{}` is `⟨none, none⟩`. -/
structure InteractionMessageData where
  content : Option String := none
  flags : Option Nat := none
deriving DecidableEq, Repr

/-- The `{ flags }` object attached to a deferred response. -/
structure DeferredData where
  flags : Nat
deriving DecidableEq, Repr

/-- Options accepted when deferring a reply (`DeferReplyOptions`). -/
structure DeferReplyOptions where
  flags : Option Nat := none
deriving DecidableEq, Repr

/-- `APIModalInteractionResponseCallbackData`: payload of a `showModal`
response (identifying fields only; the component list is opaque here). -/
structure ModalData where
  custom_id : String := ""
  title : String := ""
deriving DecidableEq, Repr

/-- `APIInteractionResponse`: the tagged response union the façades build. -/
inductive APIInteractionResponse where
  | channelMessageWithSource (data : InteractionMessageData)
  | deferredChannelMessageWithSource (data : Option DeferredData)
  | deferredMessageUpdate
  | updateMessage (data : Option InteractionMessageData)
  | modal (data : ModalData)
deriving DecidableEq, Repr

/-- The `type` field of a response. -/
def APIInteractionResponse.rtype : APIInteractionResponse → InteractionResponseType
  | .channelMessageWithSource _ => .ChannelMessageWithSource
  | .deferredChannelMessageWithSource _ => .DeferredChannelMessageWithSource
  | .deferredMessageUpdate => .DeferredMessageUpdate
  | .updateMessage _ => .UpdateMessage
  | .modal _ => .Modal

/-- `normaliseMessageFlags` (interactionMessageHelpers.ts): the helper enums
are already raw `MessageFlags` values, so the cast is the identity on a
defined value and preserves `undefined`. -/
def normaliseMessageFlags (flags : Option Nat) : Option Nat := flags

/-- `normaliseInteractionMessageData` (interactionMessageHelpers.ts):
`undefined` data stays `undefined`; data without flags is returned as-is; data
with flags is returned as-is when normalisation does not change the flags,
otherwise rebuilt with the normalised flags. -/
def normaliseInteractionMessageData (data : Option InteractionMessageData) :
    Option InteractionMessageData :=
  match data with
  | none => none
  | some d =>
    match d.flags with
    | none => some d
    | some f =>
      if normaliseMessageFlags (some f) = some f then some d
      else some { d with flags := normaliseMessageFlags (some f) }

theorem normalise_some (d : InteractionMessageData) :
    normaliseInteractionMessageData (some d) = some d := by
  unfold normaliseInteractionMessageData
  cases h : d.flags <;> simp [normaliseMessageFlags, h]

/-! ## Submitted component trees (modal submissions)

`APIModalSubmitInteraction.data.components` is a list of top-level nodes:
action rows (a `components` array of children) or label wrappers (a single
`component` child).  Children are text inputs (`custom_id`, string `value`),
select menus (`custom_id`, array `values`) or further label wrappers. -/

/-- A non-top-level submitted component. -/
inductive SubComponent where
  | textInput (custom_id : String) (value : String)
  | selectMenu (custom_id : String) (values : List String)
  | label (component : SubComponent)
deriving DecidableEq, Repr

/-- A top-level submitted component: action row (`components` array) or
label wrapper (single `component`). -/
inductive TopComponent where
  | actionRow (components : List SubComponent)
  | labelTop (component : SubComponent)
deriving DecidableEq, Repr

/-- Entities carried by the resolved maps; payloads are opaque. -/
structure APIRole where
  rid : Nat
deriving DecidableEq, Repr

structure APIUser where
  uid : Nat
deriving DecidableEq, Repr

structure APIGuildMember where
  mid : Nat
deriving DecidableEq, Repr

structure APIChannel where
  chid : Nat
deriving DecidableEq, Repr

structure APIAttachment where
  aid : Nat
deriving DecidableEq, Repr

/-- A selected user together with its optional guild member data
(`ResolvedUserOption` from MessageComponentInteraction.ts). -/
structure ResolvedUserOption where
  user : APIUser
  member : Option APIGuildMember
deriving DecidableEq, Repr

/-- JavaScript object property access on a string-keyed map. -/
def lookupA {α : Type} (m : List (String × α)) (k : String) : Option α :=
  (m.find? (fun p => p.1 = k)).map (·.2)

/-- `interaction.data.resolved`: the resolved entity maps, each optional. -/
structure ResolvedData where
  roles : Option (List (String × APIRole)) := none
  users : Option (List (String × APIUser)) := none
  members : Option (List (String × APIGuildMember)) := none
  channels : Option (List (String × APIChannel)) := none
  attachments : Option (List (String × APIAttachment)) := none
deriving DecidableEq, Repr

/-- `interaction.data` of a modal submit interaction. -/
structure ModalSubmitData where
  components : List TopComponent := []
  resolved : Option ResolvedData := none
deriving DecidableEq, Repr

/-- The parts of `APIModalSubmitInteraction` the embedded code reads. -/
structure APIModalSubmitInteraction where
  token : String := ""
  data : ModalSubmitData := {}
deriving DecidableEq, Repr

namespace ModalSubmit

/-- `findValue([c])` from `getTextFieldValue`: the inner recursion applied to
a singleton list.  A matching text leaf returns its `value` (even `""`); a
label recurses via `findValue([component.component])`, and the recursive
result is kept only when truthy (`if (found) return found;`), so an empty
string found behind a label wrapper is discarded. -/
def findValueOne (customId : String) : SubComponent → Option String
  | .textInput c v => if c = customId then some v else none
  | .selectMenu _ _ => none
  | .label ch =>
    match findValueOne customId ch with
    | some v => if v = "" then none else some v
    | none => none

/-- `findValue(components)` from `getTextFieldValue` on a list of children:
scan in order; a matching text leaf returns immediately (even with `""`); a
label child's recursive result is returned only when truthy, otherwise the
scan continues with the remaining children. -/
def findValue (customId : String) : List SubComponent → Option String
  | [] => none
  | .textInput c v :: rest =>
    if c = customId then some v else findValue customId rest
  | .selectMenu _ _ :: rest => findValue customId rest
  | .label ch :: rest =>
    match findValueOne customId ch with
    | some v => if v = "" then findValue customId rest else some v
    | none => findValue customId rest

/-- `getTextFieldValue`'s outer loop over `interaction.data.components`:
for an action row, search its `components`; for a label, search its single
`component`; in both cases keep the result only when truthy
(`if (result) return result;`) and otherwise continue with the next
top-level node. -/
def getTextFieldValueIn (customId : String) : List TopComponent → Option String
  | [] => none
  | .actionRow cs :: rest =>
    match findValue customId cs with
    | some v => if v = "" then getTextFieldValueIn customId rest else some v
    | none => getTextFieldValueIn customId rest
  | .labelTop ch :: rest =>
    match findValueOne customId ch with
    | some v => if v = "" then getTextFieldValueIn customId rest else some v
    | none => getTextFieldValueIn customId rest

/-- `getTextFieldValue(customId)` on the wrapped interaction. -/
def getTextFieldValue (i : APIModalSubmitInteraction) (customId : String) :
    Option String :=
  getTextFieldValueIn customId i.data.components

/-- `findValues([c])` from `getSelectMenuValues` on a singleton list:
a matching select leaf returns its `values` array (arrays are always
truthy, including `[]`); a label recurses into its single child. -/
def findValuesOne (customId : String) : SubComponent → Option (List String)
  | .textInput _ _ => none
  | .selectMenu c vs => if c = customId then some vs else none
  | .label ch =>
    match findValuesOne customId ch with
    | some vs => some vs
    | none => none

/-- `findValues(components)` from `getSelectMenuValues` on a list of
children. -/
def findValues (customId : String) : List SubComponent → Option (List String)
  | [] => none
  | .textInput _ _ :: rest => findValues customId rest
  | .selectMenu c vs :: rest =>
    if c = customId then some vs else findValues customId rest
  | .label ch :: rest =>
    match findValuesOne customId ch with
    | some vs => some vs
    | none => findValues customId rest

/-- `getSelectMenuValues`'s outer loop over the top-level components. -/
def getSelectMenuValuesIn (customId : String) :
    List TopComponent → Option (List String)
  | [] => none
  | .actionRow cs :: rest =>
    match findValues customId cs with
    | some vs => some vs
    | none => getSelectMenuValuesIn customId rest
  | .labelTop ch :: rest =>
    match findValuesOne customId ch with
    | some vs => some vs
    | none => getSelectMenuValuesIn customId rest

/-- `getSelectMenuValues(customId)` on the wrapped interaction. -/
def getSelectMenuValues (i : APIModalSubmitInteraction) (customId : String) :
    Option (List String) :=
  getSelectMenuValuesIn customId i.data.components

/-- `getComponentValue(customId)`: the text value when defined
(`!== undefined`), else the select-menu values. -/
def getComponentValue (i : APIModalSubmitInteraction) (customId : String) :
    Option (String ⊕ List String) :=
  match getTextFieldValue i customId with
  | some v => some (Sum.inl v)
  | none => (getSelectMenuValues i customId).map Sum.inr

/-- `getRoles(customId)`: absent select values or an absent resolved roles
map yield `[]`; otherwise each selected id is mapped through the roles map
and unresolved ids are dropped (`.filter(Boolean)`). -/
def getRoles (i : APIModalSubmitInteraction) (customId : String) :
    List APIRole :=
  match getSelectMenuValues i customId, i.data.resolved.bind (·.roles) with
  | some vals, some rolesMap => vals.filterMap (lookupA rolesMap)
  | _, _ => []

/-- `getRole(customId)`: `getRoles(customId)[0]`. -/
def getRole (i : APIModalSubmitInteraction) (customId : String) :
    Option APIRole :=
  (getRoles i customId).head?

/-- `getUsers(customId)`: like `getRoles`, but each resolved user is paired
with the optional resolved member for the same id. -/
def getUsers (i : APIModalSubmitInteraction) (customId : String) :
    List ResolvedUserOption :=
  match getSelectMenuValues i customId, i.data.resolved.bind (·.users) with
  | some vals, some usersMap =>
    vals.filterMap (fun id =>
      match lookupA usersMap id with
      | some u =>
        some ⟨u, (i.data.resolved.bind (·.members)).bind (fun mm => lookupA mm id)⟩
      | none => none)
  | _, _ => []

/-- `getUser(customId)`: `getUsers(customId)[0]`. -/
def getUser (i : APIModalSubmitInteraction) (customId : String) :
    Option ResolvedUserOption :=
  (getUsers i customId).head?

/-- `getChannels(customId)`. -/
def getChannels (i : APIModalSubmitInteraction) (customId : String) :
    List APIChannel :=
  match getSelectMenuValues i customId, i.data.resolved.bind (·.channels) with
  | some vals, some channelsMap => vals.filterMap (lookupA channelsMap)
  | _, _ => []

/-- `getChannel(customId)`: `getChannels(customId)[0]`. -/
def getChannel (i : APIModalSubmitInteraction) (customId : String) :
    Option APIChannel :=
  (getChannels i customId).head?

/-- `getAttachment(customId)`: the component value must be a truthy string
(`if (!value || Array.isArray(value)) return undefined;`), which is then
looked up in the resolved attachments map. -/
def getAttachment (i : APIModalSubmitInteraction) (customId : String) :
    Option APIAttachment :=
  match getComponentValue i customId with
  | some (Sum.inl v) =>
    if v = "" then none
    else (i.data.resolved.bind (·.attachments)).bind (fun am => lookupA am v)
  | some (Sum.inr _) => none
  | none => none

end ModalSubmit

example :
    ModalSubmit.getTextFieldValue
      ⟨"t", ⟨[.actionRow [.textInput "a" "hello"]], none⟩⟩ "a" = some "hello" := by
  decide

example :
    ModalSubmit.getTextFieldValue
      ⟨"t", ⟨[.actionRow [.textInput "a" "hello"]], none⟩⟩ "missing" = none := by
  decide

example :
    ModalSubmit.getSelectMenuValues
      ⟨"t", ⟨[.labelTop (.selectMenu "b" ["r1", "r2"])], none⟩⟩ "b"
      = some ["r1", "r2"] := by
  decide

/-! ## Context menu façade

`createUserContextMenuInteraction` and `createMessageContextMenuInteraction`
(ContextMenuInteraction.ts) have textually identical method bodies; both are
embedded once below.  The closure variable `capturedResponse` is the state
(`Option APIInteractionResponse`, initially `none`); each method returns the
built response together with the updated state, and `getResponse` reads the
state. -/

namespace ContextMenu

/-- `getResponse()`: read the capture cell. -/
def getResponse (captured : Option APIInteractionResponse) :
    Option APIInteractionResponse :=
  captured

/-- `reply(data)`: throws when `normaliseInteractionMessageData` returns a
falsy value (only `undefined` is possible), otherwise captures and returns a
`ChannelMessageWithSource` response. -/
def reply (data : Option InteractionMessageData)
    (captured : Option APIInteractionResponse) :
    Except String (APIInteractionResponse × Option APIInteractionResponse) :=
  match normaliseInteractionMessageData data with
  | none =>
    .error "[MiniInteraction] Channel message responses require data to be provided."
  | some normalised =>
    let response := APIInteractionResponse.channelMessageWithSource normalised
    .ok (response, some response)

/-- `deferReply(options = {})`: builds a deferred response whose `data` is
`{ flags }` when the normalised flags are truthy (`flags ? { flags } :
undefined`, so a `0` flag also yields no data), captures and returns it. -/
def deferReply (options : Option DeferReplyOptions)
    (captured : Option APIInteractionResponse) :
    APIInteractionResponse × Option APIInteractionResponse :=
  let flags := normaliseMessageFlags (options.getD {}).flags
  let response := APIInteractionResponse.deferredChannelMessageWithSource
    (match flags with
     | some f => if f = 0 then none else some ⟨f⟩
     | none => none)
  (response, some response)

/-- The `showModal` argument: a finished payload, or an object exposing
`toJSON()` (capability-probed via `"toJSON" in data`). -/
inductive ModalDataArg where
  | raw (d : ModalData)
  | jsonEncodable (d : ModalData)
deriving DecidableEq, Repr

/-- The probe `typeof data === "object" && "toJSON" in data ? data.toJSON() : data`. -/
def ModalDataArg.toModalData : ModalDataArg → ModalData
  | .raw d => d
  | .jsonEncodable d => d

/-- `showModal(data)`: captures and returns a `Modal` response. -/
def showModal (data : ModalDataArg)
    (captured : Option APIInteractionResponse) :
    APIInteractionResponse × Option APIInteractionResponse :=
  let modalData := data.toModalData
  let response := APIInteractionResponse.modal modalData
  (response, some response)

end ContextMenu

/-! ## Message component façade (MessageComponentInteraction.ts)

Same capture-cell state as the context menu façade; `captureResponse`
writes the cell and returns its argument. -/

namespace MessageComponent

/-- `captureResponse(response)`: write the cell, return the response. -/
def captureResponse (response : APIInteractionResponse)
    (captured : Option APIInteractionResponse) :
    APIInteractionResponse × Option APIInteractionResponse :=
  (response, some response)

/-- `getResponse()`. -/
def getResponse (captured : Option APIInteractionResponse) :
    Option APIInteractionResponse :=
  captured

/-- `reply(data)`: throws when the normalised data is `undefined`,
otherwise captures a `ChannelMessageWithSource` response. -/
def reply (data : Option InteractionMessageData)
    (captured : Option APIInteractionResponse) :
    Except String (APIInteractionResponse × Option APIInteractionResponse) :=
  match normaliseInteractionMessageData data with
  | none =>
    .error "[MiniInteraction] Component replies require response data to be provided."
  | some normalisedData =>
    .ok (captureResponse (.channelMessageWithSource normalisedData) captured)

/-- `deferReply(options?)`: `data` is `{ flags }` exactly when the
normalised flags are defined (`flags !== undefined`, so a `0` flag is
kept, unlike the context menu façade). -/
def deferReply (options : Option DeferReplyOptions)
    (captured : Option APIInteractionResponse) :
    APIInteractionResponse × Option APIInteractionResponse :=
  let flags := normaliseMessageFlags (options.bind (·.flags))
  let response := APIInteractionResponse.deferredChannelMessageWithSource
    (flags.map fun f => ⟨f⟩)
  captureResponse response captured

/-- `update(data?)`: payload optional; captures an `UpdateMessage` response
with `data` present exactly when the normalised data is defined. -/
def update (data : Option InteractionMessageData)
    (captured : Option APIInteractionResponse) :
    APIInteractionResponse × Option APIInteractionResponse :=
  let normalisedData := normaliseInteractionMessageData data
  let response := APIInteractionResponse.updateMessage normalisedData
  captureResponse response captured

/-- `deferUpdate()`: captures a bare `DeferredMessageUpdate` response. -/
def deferUpdate (captured : Option APIInteractionResponse) :
    APIInteractionResponse × Option APIInteractionResponse :=
  captureResponse .deferredMessageUpdate captured

end MessageComponent

/-! ## Modal submit façade (ModalSubmitInteraction.ts)

State: the closure variables `capturedResponse` and `isDeferred`.  The
optional helper callbacks are modelled by presence flags; the calls the
method makes to them are recorded as an ordered effect list. -/

/-- The two closure variables of `createModalSubmitInteraction`. -/
structure MSState where
  capturedResponse : Option APIInteractionResponse := none
  isDeferred : Bool := false
deriving DecidableEq, Repr

/-- Which optional helper callbacks were supplied to
`createModalSubmitInteraction`. -/
structure MSHelpers where
  hasOnAck : Bool := false
  hasSendFollowUp : Bool := false
deriving DecidableEq, Repr

/-- Calls a modal submit façade method makes to its helper callbacks. -/
inductive MSEffect where
  | onAck (response : APIInteractionResponse)
  | sendFollowUp (token : String) (response : APIInteractionResponse)
      (messageId : Option String)
deriving DecidableEq, Repr

namespace ModalSubmit

/-- `captureResponse(response)` / `getResponse()` on the modal submit
façade: the cell is `MSState.capturedResponse`. -/
def getResponse (s : MSState) : Option APIInteractionResponse :=
  s.capturedResponse

/-- `reply(data)`: throws when the normalised data is `undefined`;
otherwise captures a `ChannelMessageWithSource`, then either sends it as a
follow-up addressed to `'@original'` (when already deferred and a
`sendFollowUp` helper exists) or acknowledges synchronously via `onAck`. -/
def reply (helpers : MSHelpers) (token : String)
    (data : Option InteractionMessageData) (s : MSState) :
    Except String (APIInteractionResponse × MSState × List MSEffect) :=
  match normaliseInteractionMessageData data with
  | none =>
    .error "[MiniInteraction] Modal replies require response data to be provided."
  | some normalisedData =>
    let response := APIInteractionResponse.channelMessageWithSource normalisedData
    let s' := { s with capturedResponse := some response }
    let effects :=
      if s.isDeferred && helpers.hasSendFollowUp then
        [MSEffect.sendFollowUp token response (some "@original")]
      else if helpers.hasOnAck then [MSEffect.onAck response] else []
    .ok (response, s', effects)

/-- `deferReply(options?)`: builds the deferred response (`data` present
iff the normalised flags are defined), captures it, sets `isDeferred`,
and acknowledges via `onAck`. -/
def deferReply (helpers : MSHelpers) (options : Option DeferReplyOptions)
    (s : MSState) : APIInteractionResponse × MSState × List MSEffect :=
  let flags := normaliseMessageFlags (options.bind (·.flags))
  let response := APIInteractionResponse.deferredChannelMessageWithSource
    (flags.map fun f => ⟨f⟩)
  let s' := { s with capturedResponse := some response, isDeferred := true }
  let effects := if helpers.hasOnAck then [MSEffect.onAck response] else []
  (response, s', effects)

end ModalSubmit

/-! ## Spec-side pre-order first-match resolver

Modelled from the spec: "perform a pre-order traversal over the top-level
nodes ... Return the first match encountered in traversal order; do not
aggregate across duplicates."  Used as the reference for the refinement
claims about `getTextFieldValue` / `getSelectMenuValues`. -/

/-- Modelled from the spec: first matching text leaf underneath a single
node, in pre-order, a label wrapper unwrapped into its single child. -/
def specFirstTextOne (customId : String) : SubComponent → Option String
  | .textInput c v => if c = customId then some v else none
  | .selectMenu _ _ => none
  | .label ch => specFirstTextOne customId ch

/-- Modelled from the spec: first matching text leaf in a child list,
children visited in order. -/
def specFirstTextList (customId : String) : List SubComponent → Option String
  | [] => none
  | c :: rest =>
    match specFirstTextOne customId c with
    | some v => some v
    | none => specFirstTextList customId rest

/-- Modelled from the spec: first matching text leaf of the whole submitted
tree, top-level nodes visited in order. -/
def specFirstText (customId : String) : List TopComponent → Option String
  | [] => none
  | .actionRow cs :: rest =>
    match specFirstTextList customId cs with
    | some v => some v
    | none => specFirstText customId rest
  | .labelTop ch :: rest =>
    match specFirstTextOne customId ch with
    | some v => some v
    | none => specFirstText customId rest

/-- Modelled from the spec: first matching selection leaf underneath a
single node. -/
def specFirstSelOne (customId : String) : SubComponent → Option (List String)
  | .textInput _ _ => none
  | .selectMenu c vs => if c = customId then some vs else none
  | .label ch => specFirstSelOne customId ch

/-- Modelled from the spec: first matching selection leaf in a child list. -/
def specFirstSelList (customId : String) :
    List SubComponent → Option (List String)
  | [] => none
  | c :: rest =>
    match specFirstSelOne customId c with
    | some vs => some vs
    | none => specFirstSelList customId rest

/-- Modelled from the spec: first matching selection leaf of the tree. -/
def specFirstSel (customId : String) : List TopComponent → Option (List String)
  | [] => none
  | .actionRow cs :: rest =>
    match specFirstSelList customId cs with
    | some vs => some vs
    | none => specFirstSel customId rest
  | .labelTop ch :: rest =>
    match specFirstSelOne customId ch with
    | some vs => some vs
    | none => specFirstSel customId rest

/-! ## Tree predicates -/

/-- Every text leaf matching `customId` under this node has a non-empty
value. -/
def textOkOne (customId : String) : SubComponent → Bool
  | .textInput c v => !(c = customId && v = "")
  | .selectMenu _ _ => true
  | .label ch => textOkOne customId ch

/-- List version of `textOkOne`. -/
def textOkList (customId : String) (cs : List SubComponent) : Bool :=
  cs.all (textOkOne customId)

/-- Tree version of `textOkOne`. -/
def textOkTop (customId : String) : List TopComponent → Bool
  | [] => true
  | .actionRow cs :: rest => textOkList customId cs && textOkTop customId rest
  | .labelTop ch :: rest => textOkOne customId ch && textOkTop customId rest

/-- Every text leaf matching `customId` under this node has the empty
string as its value. -/
def textEmptyOne (customId : String) : SubComponent → Bool
  | .textInput c v => !(c = customId) || (v = "")
  | .selectMenu _ _ => true
  | .label ch => textEmptyOne customId ch

/-- List version of `textEmptyOne`. -/
def textEmptyList (customId : String) (cs : List SubComponent) : Bool :=
  cs.all (textEmptyOne customId)

/-- Tree version of `textEmptyOne`. -/
def textEmptyTop (customId : String) : List TopComponent → Bool
  | [] => true
  | .actionRow cs :: rest =>
    textEmptyList customId cs && textEmptyTop customId rest
  | .labelTop ch :: rest =>
    textEmptyOne customId ch && textEmptyTop customId rest

/-- `customId` occurs as the `custom_id` of some leaf under this node. -/
def mentionsOne (customId : String) : SubComponent → Bool
  | .textInput c _ => c = customId
  | .selectMenu c _ => c = customId
  | .label ch => mentionsOne customId ch

/-- List version of `mentionsOne`. -/
def mentionsList (customId : String) (cs : List SubComponent) : Bool :=
  cs.any (mentionsOne customId)

/-- Tree version of `mentionsOne`. -/
def mentionsTop (customId : String) : List TopComponent → Bool
  | [] => false
  | .actionRow cs :: rest =>
    mentionsList customId cs || mentionsTop customId rest
  | .labelTop ch :: rest =>
    mentionsOne customId ch || mentionsTop customId rest

/-! ## Resolver lemmas -/

namespace ModalSubmit

theorem findValueOne_of_textOk (customId : String) (c : SubComponent)
    (h : textOkOne customId c = true) :
    findValueOne customId c = specFirstTextOne customId c ∧
      ∀ v, specFirstTextOne customId c = some v → v ≠ "" := by
  induction c with
  | textInput c v =>
    constructor
    · rfl
    · intro w hw
      simp only [specFirstTextOne] at hw
      by_cases hc : c = customId
      · rw [if_pos hc] at hw
        injection hw with hw
        subst hw
        intro hw'
        simp [textOkOne, hc, hw'] at h
      · rw [if_neg hc] at hw
        exact absurd hw (by simp)
  | selectMenu c vs => exact ⟨rfl, by intro v hv; simp [specFirstTextOne] at hv⟩
  | label ch ih =>
    simp only [textOkOne] at h
    obtain ⟨h1, h2⟩ := ih h
    constructor
    · simp only [findValueOne, specFirstTextOne, h1]
      cases hs : specFirstTextOne customId ch with
      | none => rfl
      | some v => simp [h2 v hs]
    · intro v hv
      exact h2 v (by simpa [specFirstTextOne] using hv)

theorem findValue_of_textOk (customId : String) (cs : List SubComponent)
    (h : textOkList customId cs = true) :
    findValue customId cs = specFirstTextList customId cs ∧
      ∀ v, specFirstTextList customId cs = some v → v ≠ "" := by
  induction cs with
  | nil => exact ⟨rfl, by intro v hv; simp [specFirstTextList] at hv⟩
  | cons c rest ih =>
    simp only [textOkList, List.all_cons, Bool.and_eq_true] at h
    obtain ⟨hc, hrest⟩ := h
    obtain ⟨ih1, ih2⟩ := ih hrest
    cases c with
    | textInput cc v =>
      by_cases hcc : cc = customId
      · subst hcc
        refine ⟨by simp [findValue, specFirstTextList, specFirstTextOne], ?_⟩
        intro w hw
        simp only [specFirstTextList, specFirstTextOne, if_pos rfl] at hw
        injection hw with hw
        subst hw
        intro hw'
        simp [textOkOne, hw'] at hc
      · refine ⟨by simp [findValue, specFirstTextList, specFirstTextOne, hcc, ih1], ?_⟩
        intro w hw
        simp only [specFirstTextList, specFirstTextOne, if_neg hcc] at hw
        exact ih2 w hw
    | selectMenu cc vs =>
      exact ⟨by simp [findValue, specFirstTextList, specFirstTextOne, ih1], by
        intro w hw
        simp only [specFirstTextList, specFirstTextOne] at hw
        exact ih2 w hw⟩
    | label ch =>
      obtain ⟨g1, g2⟩ := findValueOne_of_textOk customId ch (by simpa [textOkOne] using hc)
      constructor
      · simp only [findValue, specFirstTextList, specFirstTextOne, g1]
        cases hs : specFirstTextOne customId ch with
        | none => simpa using ih1
        | some v => simp [g2 v hs]
      · intro w hw
        simp only [specFirstTextList, specFirstTextOne] at hw
        cases hs : specFirstTextOne customId ch with
        | none => exact ih2 w (by simpa [hs] using hw)
        | some v =>
          rw [hs] at hw
          injection hw with hw
          exact hw ▸ g2 v hs

theorem getTextFieldValueIn_of_textOk (customId : String)
    (tops : List TopComponent) (h : textOkTop customId tops = true) :
    getTextFieldValueIn customId tops = specFirstText customId tops := by
  induction tops with
  | nil => rfl
  | cons t rest ih =>
    cases t with
    | actionRow cs =>
      simp only [textOkTop, Bool.and_eq_true] at h
      obtain ⟨g1, g2⟩ := findValue_of_textOk customId cs h.1
      simp only [getTextFieldValueIn, specFirstText, g1]
      cases hs : specFirstTextList customId cs with
      | none => exact ih h.2
      | some v => simp [g2 v hs]
    | labelTop ch =>
      simp only [textOkTop, Bool.and_eq_true] at h
      obtain ⟨g1, g2⟩ := findValueOne_of_textOk customId ch h.1
      simp only [getTextFieldValueIn, specFirstText, g1]
      cases hs : specFirstTextOne customId ch with
      | none => exact ih h.2
      | some v => simp [g2 v hs]

theorem findValuesOne_eq_spec (customId : String) (c : SubComponent) :
    findValuesOne customId c = specFirstSelOne customId c := by
  induction c with
  | textInput c v => rfl
  | selectMenu c vs => rfl
  | label ch ih =>
    simp only [findValuesOne, specFirstSelOne, ih]
    cases specFirstSelOne customId ch <;> rfl

theorem findValues_eq_spec (customId : String) (cs : List SubComponent) :
    findValues customId cs = specFirstSelList customId cs := by
  induction cs with
  | nil => rfl
  | cons c rest ih =>
    cases c with
    | textInput cc v => simpa [findValues, specFirstSelList, specFirstSelOne] using ih
    | selectMenu cc vs =>
      by_cases hcc : cc = customId <;>
        simp [findValues, specFirstSelList, specFirstSelOne, hcc, ih]
    | label ch =>
      simp only [findValues, specFirstSelList, specFirstSelOne,
        findValuesOne_eq_spec]
      cases specFirstSelOne customId ch <;> simp [ih]

theorem getSelectMenuValuesIn_eq_spec (customId : String)
    (tops : List TopComponent) :
    getSelectMenuValuesIn customId tops = specFirstSel customId tops := by
  induction tops with
  | nil => rfl
  | cons t rest ih =>
    cases t with
    | actionRow cs =>
      simp only [getSelectMenuValuesIn, specFirstSel, findValues_eq_spec]
      cases specFirstSelList customId cs <;> simp [ih]
    | labelTop ch =>
      simp only [getSelectMenuValuesIn, specFirstSel, findValuesOne_eq_spec]
      cases specFirstSelOne customId ch <;> simp [ih]

end ModalSubmit

namespace ModalSubmit

theorem findValueOne_of_textEmpty (customId : String) (c : SubComponent)
    (h : textEmptyOne customId c = true) :
    findValueOne customId c = none ∨ findValueOne customId c = some "" := by
  induction c with
  | textInput c v =>
    by_cases hc : c = customId
    · right
      have hv : v = "" := by simpa [textEmptyOne, hc] using h
      simp [findValueOne, hc, hv]
    · left
      simp [findValueOne, hc]
  | selectMenu c vs => left; rfl
  | label ch ih =>
    left
    simp only [textEmptyOne] at h
    rcases ih h with h1 | h1 <;> simp [findValueOne, h1]

theorem findValue_of_textEmpty (customId : String) (cs : List SubComponent)
    (h : textEmptyList customId cs = true) :
    findValue customId cs = none ∨ findValue customId cs = some "" := by
  induction cs with
  | nil => left; rfl
  | cons c rest ih =>
    simp only [textEmptyList, List.all_cons, Bool.and_eq_true] at h
    obtain ⟨hc, hrest⟩ := h
    have ihr := ih hrest
    cases c with
    | textInput cc v =>
      by_cases hcc : cc = customId
      · right
        have hv : v = "" := by simpa [textEmptyOne, hcc] using hc
        simp [findValue, hcc, hv]
      · simpa [findValue, hcc] using ihr
    | selectMenu cc vs => simpa [findValue] using ihr
    | label ch =>
      rcases findValueOne_of_textEmpty customId ch
          (by simpa [textEmptyOne] using hc) with h1 | h1 <;>
        simpa [findValue, h1] using ihr

theorem getTextFieldValueIn_of_textEmpty (customId : String)
    (tops : List TopComponent) (h : textEmptyTop customId tops = true) :
    getTextFieldValueIn customId tops = none := by
  induction tops with
  | nil => rfl
  | cons t rest ih =>
    cases t with
    | actionRow cs =>
      simp only [textEmptyTop, Bool.and_eq_true] at h
      rcases findValue_of_textEmpty customId cs h.1 with h1 | h1 <;>
        simp [getTextFieldValueIn, h1, ih h.2]
    | labelTop ch =>
      simp only [textEmptyTop, Bool.and_eq_true] at h
      rcases findValueOne_of_textEmpty customId ch h.1 with h1 | h1 <;>
        simp [getTextFieldValueIn, h1, ih h.2]

theorem getTextFieldValueIn_ne_empty (customId : String)
    (tops : List TopComponent) :
    getTextFieldValueIn customId tops ≠ some "" := by
  induction tops with
  | nil => simp [getTextFieldValueIn]
  | cons t rest ih =>
    cases t with
    | actionRow cs =>
      simp only [getTextFieldValueIn]
      cases findValue customId cs with
      | none => exact ih
      | some v =>
        by_cases hv : v = "" <;> simp [hv, ih]
    | labelTop ch =>
      simp only [getTextFieldValueIn]
      cases findValueOne customId ch with
      | none => exact ih
      | some v =>
        by_cases hv : v = "" <;> simp [hv, ih]

theorem findValueOne_of_not_mentions (customId : String) (c : SubComponent)
    (h : mentionsOne customId c = false) :
    findValueOne customId c = none := by
  induction c with
  | textInput c v =>
    have hc : ¬ c = customId := by simpa [mentionsOne] using h
    simp [findValueOne, hc]
  | selectMenu c vs => rfl
  | label ch ih => simp [findValueOne, ih (by simpa [mentionsOne] using h)]

theorem findValuesOne_of_not_mentions (customId : String) (c : SubComponent)
    (h : mentionsOne customId c = false) :
    findValuesOne customId c = none := by
  induction c with
  | textInput c v => rfl
  | selectMenu c vs =>
    have hc : ¬ c = customId := by simpa [mentionsOne] using h
    simp [findValuesOne, hc]
  | label ch ih => simp [findValuesOne, ih (by simpa [mentionsOne] using h)]

theorem findValue_of_not_mentions (customId : String) (cs : List SubComponent)
    (h : mentionsList customId cs = false) :
    findValue customId cs = none := by
  induction cs with
  | nil => rfl
  | cons c rest ih =>
    simp only [mentionsList, List.any_cons, Bool.or_eq_false_iff] at h
    have ihr := ih (by simpa [mentionsList] using h.2)
    cases c with
    | textInput cc v =>
      have hc : ¬ cc = customId := by simpa [mentionsOne] using h.1
      simp [findValue, hc, ihr]
    | selectMenu cc vs => simpa [findValue] using ihr
    | label ch =>
      simp [findValue, findValueOne_of_not_mentions customId ch h.1, ihr]

theorem findValues_of_not_mentions (customId : String) (cs : List SubComponent)
    (h : mentionsList customId cs = false) :
    findValues customId cs = none := by
  induction cs with
  | nil => rfl
  | cons c rest ih =>
    simp only [mentionsList, List.any_cons, Bool.or_eq_false_iff] at h
    have ihr := ih (by simpa [mentionsList] using h.2)
    cases c with
    | textInput cc v => simpa [findValues] using ihr
    | selectMenu cc vs =>
      have hc : ¬ cc = customId := by simpa [mentionsOne] using h.1
      simp [findValues, hc, ihr]
    | label ch =>
      simp [findValues, findValuesOne_of_not_mentions customId ch h.1, ihr]

theorem getTextFieldValueIn_of_not_mentions (customId : String)
    (tops : List TopComponent) (h : mentionsTop customId tops = false) :
    getTextFieldValueIn customId tops = none := by
  induction tops with
  | nil => rfl
  | cons t rest ih =>
    cases t with
    | actionRow cs =>
      simp only [mentionsTop, Bool.or_eq_false_iff] at h
      simp [getTextFieldValueIn, findValue_of_not_mentions customId cs h.1,
        ih h.2]
    | labelTop ch =>
      simp only [mentionsTop, Bool.or_eq_false_iff] at h
      simp [getTextFieldValueIn, findValueOne_of_not_mentions customId ch h.1,
        ih h.2]

theorem getSelectMenuValuesIn_of_not_mentions (customId : String)
    (tops : List TopComponent) (h : mentionsTop customId tops = false) :
    getSelectMenuValuesIn customId tops = none := by
  induction tops with
  | nil => rfl
  | cons t rest ih =>
    cases t with
    | actionRow cs =>
      simp only [mentionsTop, Bool.or_eq_false_iff] at h
      simp [getSelectMenuValuesIn, findValues_of_not_mentions customId cs h.1,
        ih h.2]
    | labelTop ch =>
      simp only [mentionsTop, Bool.or_eq_false_iff] at h
      simp [getSelectMenuValuesIn,
        findValuesOne_of_not_mentions customId ch h.1, ih h.2]

end ModalSubmit

/-- First identifier in a selection that resolves through `f`, mapped to its
entity; absent when none resolves.  This is the "first resolved entity"
notion of the spec's singular getters. -/
def firstResolved {α : Type} (f : String → Option α) : List String → Option α
  | [] => none
  | v :: vs =>
    match f v with
    | some e => some e
    | none => firstResolved f vs

theorem head_filterMap_eq_firstResolved {α : Type} (f : String → Option α)
    (vs : List String) : (vs.filterMap f).head? = firstResolved f vs := by
  induction vs with
  | nil => rfl
  | cons v rest ih =>
    simp only [List.filterMap_cons, firstResolved]
    cases f v with
    | none => exact ih
    | some e => rfl

/-! ## Acknowledgement call sequences (for the capture-cell claims)

A call with valid arguments: `reply` always carries a (possibly empty)
payload object, the other methods take their arguments as in the source. -/

/-- A valid acknowledgement call on the context menu façade. -/
inductive CMCall where
  | reply (data : InteractionMessageData)
  | deferReply (options : Option DeferReplyOptions)
  | showModal (data : ContextMenu.ModalDataArg)
deriving DecidableEq, Repr

/-- Run one context menu call against the capture cell. -/
def CMCall.run :
    CMCall → Option APIInteractionResponse →
      Except String (APIInteractionResponse × Option APIInteractionResponse)
  | .reply d, s => ContextMenu.reply (some d) s
  | .deferReply o, s => .ok (ContextMenu.deferReply o s)
  | .showModal m, s => .ok (ContextMenu.showModal m s)

/-- Run a sequence of context menu calls (an error leaves the cell as it
was, matching a thrown exception). -/
def CMCall.runSeq :
    List CMCall → Option APIInteractionResponse → Option APIInteractionResponse
  | [], s => s
  | c :: cs, s =>
    match c.run s with
    | .ok (_, s') => CMCall.runSeq cs s'
    | .error _ => s

theorem CMCall.cmRun_ok (c : CMCall) (s : Option APIInteractionResponse) :
    ∃ r, c.run s = .ok (r, some r) := by
  cases c with
  | reply d =>
    refine ⟨.channelMessageWithSource d, ?_⟩
    show ContextMenu.reply (some d) s = _
    unfold ContextMenu.reply
    rw [normalise_some]
  | deferReply o => exact ⟨_, rfl⟩
  | showModal m => exact ⟨_, rfl⟩

theorem CMCall.cmRunSeq_append (cs ds : List CMCall)
    (s : Option APIInteractionResponse) :
    CMCall.runSeq (cs ++ ds) s = CMCall.runSeq ds (CMCall.runSeq cs s) := by
  induction cs generalizing s with
  | nil => rfl
  | cons c cs ih =>
    obtain ⟨r, hr⟩ := CMCall.cmRun_ok c s
    simp [CMCall.runSeq, hr, ih]

/-- A valid acknowledgement call on the message component façade. -/
inductive MCCall where
  | reply (data : InteractionMessageData)
  | deferReply (options : Option DeferReplyOptions)
  | update (data : Option InteractionMessageData)
  | deferUpdate
deriving DecidableEq, Repr

/-- Run one message component call against the capture cell. -/
def MCCall.run :
    MCCall → Option APIInteractionResponse →
      Except String (APIInteractionResponse × Option APIInteractionResponse)
  | .reply d, s => MessageComponent.reply (some d) s
  | .deferReply o, s => .ok (MessageComponent.deferReply o s)
  | .update d, s => .ok (MessageComponent.update d s)
  | .deferUpdate, s => .ok (MessageComponent.deferUpdate s)

/-- Run a sequence of message component calls. -/
def MCCall.runSeq :
    List MCCall → Option APIInteractionResponse → Option APIInteractionResponse
  | [], s => s
  | c :: cs, s =>
    match c.run s with
    | .ok (_, s') => MCCall.runSeq cs s'
    | .error _ => s

theorem MCCall.mcRun_ok (c : MCCall) (s : Option APIInteractionResponse) :
    ∃ r, c.run s = .ok (r, some r) := by
  cases c with
  | reply d =>
    refine ⟨.channelMessageWithSource d, ?_⟩
    show MessageComponent.reply (some d) s = _
    unfold MessageComponent.reply
    rw [normalise_some]
    rfl
  | deferReply o => exact ⟨_, rfl⟩
  | update d => exact ⟨_, rfl⟩
  | deferUpdate => exact ⟨_, rfl⟩

theorem MCCall.mcRunSeq_append (cs ds : List MCCall)
    (s : Option APIInteractionResponse) :
    MCCall.runSeq (cs ++ ds) s = MCCall.runSeq ds (MCCall.runSeq cs s) := by
  induction cs generalizing s with
  | nil => rfl
  | cons c cs ih =>
    obtain ⟨r, hr⟩ := MCCall.mcRun_ok c s
    simp [MCCall.runSeq, hr, ih]

/-- A valid acknowledgement call on the modal submit façade. -/
inductive MSCall where
  | reply (data : InteractionMessageData)
  | deferReply (options : Option DeferReplyOptions)
deriving DecidableEq, Repr

/-- Run one modal submit call against the façade state. -/
def MSCall.run (helpers : MSHelpers) (token : String) :
    MSCall → MSState →
      Except String (APIInteractionResponse × MSState × List MSEffect)
  | .reply d, s => ModalSubmit.reply helpers token (some d) s
  | .deferReply o, s => .ok (ModalSubmit.deferReply helpers o s)

/-- Run a sequence of modal submit calls. -/
def MSCall.runSeq (helpers : MSHelpers) (token : String) :
    List MSCall → MSState → MSState
  | [], s => s
  | c :: cs, s =>
    match MSCall.run helpers token c s with
    | .ok (_, s', _) => MSCall.runSeq helpers token cs s'
    | .error _ => s

theorem MSCall.msRun_ok (helpers : MSHelpers) (token : String) (c : MSCall)
    (s : MSState) :
    ∃ r s' eff, MSCall.run helpers token c s = .ok (r, s', eff) ∧
      s'.capturedResponse = some r := by
  cases c with
  | reply d =>
    refine ⟨.channelMessageWithSource d,
      { s with capturedResponse := some (.channelMessageWithSource d) },
      if s.isDeferred && helpers.hasSendFollowUp then
        [MSEffect.sendFollowUp token (.channelMessageWithSource d) (some "@original")]
      else if helpers.hasOnAck then [MSEffect.onAck (.channelMessageWithSource d)]
      else [], ?_, rfl⟩
    show ModalSubmit.reply helpers token (some d) s = _
    unfold ModalSubmit.reply
    rw [normalise_some]
  | deferReply o => exact ⟨_, _, _, rfl, rfl⟩

theorem MSCall.msRunSeq_append (helpers : MSHelpers) (token : String)
    (cs ds : List MSCall) (s : MSState) :
    MSCall.runSeq helpers token (cs ++ ds) s =
      MSCall.runSeq helpers token ds (MSCall.runSeq helpers token cs s) := by
  induction cs generalizing s with
  | nil => rfl
  | cons c cs ih =>
    obtain ⟨r, s', eff, hr, _⟩ := MSCall.msRun_ok helpers token c s
    simp [MSCall.runSeq, hr, ih]

/-! ## Claim theorems -/

/-- C1: on a fresh façade of each kind, calling exactly one acknowledgement
method with valid payload arguments makes `getResponse()` return a non-null
Response whose `type` is the response kind matching the method:
`reply` → ChannelMessageWithSource, `deferReply` →
DeferredChannelMessageWithSource, `update` → UpdateMessage, `deferUpdate` →
DeferredMessageUpdate, `showModal` → Modal — across the context menu,
message component and modal submit façades. -/
theorem c1_single_ack_matches_type (d u : InteractionMessageData)
    (o : Option DeferReplyOptions) (m : ContextMenu.ModalDataArg)
    (hp : MSHelpers) (tok : String) :
    (∃ r s', ContextMenu.reply (some d) none = .ok (r, s') ∧
      ContextMenu.getResponse s' = some r ∧
      r.rtype = .ChannelMessageWithSource) ∧
    (ContextMenu.getResponse (ContextMenu.deferReply o none).2 =
        some (ContextMenu.deferReply o none).1 ∧
      (ContextMenu.deferReply o none).1.rtype =
        .DeferredChannelMessageWithSource) ∧
    (ContextMenu.getResponse (ContextMenu.showModal m none).2 =
        some (ContextMenu.showModal m none).1 ∧
      (ContextMenu.showModal m none).1.rtype = .Modal) ∧
    (∃ r s', MessageComponent.reply (some d) none = .ok (r, s') ∧
      MessageComponent.getResponse s' = some r ∧
      r.rtype = .ChannelMessageWithSource) ∧
    (MessageComponent.getResponse (MessageComponent.deferReply o none).2 =
        some (MessageComponent.deferReply o none).1 ∧
      (MessageComponent.deferReply o none).1.rtype =
        .DeferredChannelMessageWithSource) ∧
    (MessageComponent.getResponse (MessageComponent.update (some u) none).2 =
        some (MessageComponent.update (some u) none).1 ∧
      (MessageComponent.update (some u) none).1.rtype = .UpdateMessage) ∧
    (MessageComponent.getResponse (MessageComponent.deferUpdate none).2 =
        some (MessageComponent.deferUpdate none).1 ∧
      (MessageComponent.deferUpdate none).1.rtype = .DeferredMessageUpdate) ∧
    (∃ r s' eff, ModalSubmit.reply hp tok (some d) {} = .ok (r, s', eff) ∧
      ModalSubmit.getResponse s' = some r ∧
      r.rtype = .ChannelMessageWithSource) ∧
    (ModalSubmit.getResponse (ModalSubmit.deferReply hp o {}).2.1 =
        some (ModalSubmit.deferReply hp o {}).1 ∧
      (ModalSubmit.deferReply hp o {}).1.rtype =
        .DeferredChannelMessageWithSource) := by
  refine ⟨⟨.channelMessageWithSource d, some (.channelMessageWithSource d),
      ?_, rfl, rfl⟩,
    ⟨rfl, rfl⟩, ⟨rfl, rfl⟩,
    ⟨.channelMessageWithSource d, some (.channelMessageWithSource d),
      ?_, rfl, rfl⟩,
    ⟨rfl, rfl⟩, ⟨rfl, rfl⟩, ⟨rfl, rfl⟩,
    ⟨.channelMessageWithSource d,
      { capturedResponse := some (.channelMessageWithSource d),
        isDeferred := false },
      if hp.hasOnAck then [MSEffect.onAck (.channelMessageWithSource d)]
        else [],
      ?_, rfl, rfl⟩,
    ⟨rfl, rfl⟩⟩
  · unfold ContextMenu.reply
    rw [normalise_some]
  · unfold MessageComponent.reply
    rw [normalise_some]
    rfl
  · unfold ModalSubmit.reply
    rw [normalise_some]
    rfl

/-- C2 counterexample: `reply({})` on the modal submit façade does NOT fail:
`normaliseInteractionMessageData({})` returns the (truthy) empty object, so
the guard `if (!normalisedData) throw ...` does not fire.  The call
succeeds, overwrites the capture cell with a `ChannelMessageWithSource`
response carrying the empty data object, and emits no effect — contradicting
the claim that it fails with `EmptyPayload` and leaves the cell unchanged. -/
theorem c2_counterexample_empty_reply_succeeds :
    ModalSubmit.reply {} "tok" (some {}) {} =
      .ok (.channelMessageWithSource {},
        { capturedResponse := some (.channelMessageWithSource {}),
          isDeferred := false }, []) := rfl

/-- C2 amended: `reply` fails synchronously (before any I/O and without
touching the capture cell) exactly when the data argument is absent; a
provided payload — even the empty object `{}` — is accepted and captured as
a `ChannelMessageWithSource` with that data, and `reply({content: "x"})` in
particular captures a response whose data has content `"x"`. -/
theorem c2_amended_reply_requires_provided_data (hp : MSHelpers)
    (tok : String) (s : MSState) :
    (ModalSubmit.reply hp tok none s =
      .error "[MiniInteraction] Modal replies require response data to be provided.") ∧
    (∃ eff, ModalSubmit.reply hp tok (some ⟨some "x", none⟩) s =
      .ok (.channelMessageWithSource ⟨some "x", none⟩,
        { s with
            capturedResponse := some (.channelMessageWithSource ⟨some "x", none⟩) },
        eff)) ∧
    (∃ eff, ModalSubmit.reply hp tok (some {}) s =
      .ok (.channelMessageWithSource {},
        { s with capturedResponse := some (.channelMessageWithSource {}) },
        eff)) := by
  refine ⟨rfl, ⟨_, rfl⟩, ⟨_, rfl⟩⟩

/-- C3: on the modal submit façade with a `sendFollowUp` transport
supplied, once `deferReply` has been called, a subsequent `reply(data)`
with provided data is delivered through the asynchronous follow-up channel
addressed with the `'@original'` marker using the interaction token, and
the `onAck` path is not invoked: the emitted effect list is exactly one
`sendFollowUp` and contains no `onAck`. -/
theorem c3_reply_after_defer_uses_followup (ack : Bool) (tok : String)
    (d : InteractionMessageData) (o : Option DeferReplyOptions)
    (s0 : MSState) :
    ModalSubmit.reply ⟨ack, true⟩ tok (some d)
        (ModalSubmit.deferReply ⟨ack, true⟩ o s0).2.1 =
      .ok (.channelMessageWithSource d,
        { (ModalSubmit.deferReply ⟨ack, true⟩ o s0).2.1 with
            capturedResponse := some (.channelMessageWithSource d) },
        [MSEffect.sendFollowUp tok (.channelMessageWithSource d)
          (some "@original")]) := by
  unfold ModalSubmit.reply
  rw [normalise_some]
  rfl

/-- C8: after `deferReply`, the modal submit façade records
`isDeferred = true` and `getResponse()` returns the captured deferred
Response; called with no options, the captured Response (on the modal
submit, context menu and message component façades alike) is a
`DeferredChannelMessageWithSource` with no data, hence no flags field
anywhere in the payload. -/
theorem c8_defer_sets_deferred_and_no_flags (hp : MSHelpers) (s : MSState)
    (c : Option APIInteractionResponse) :
    ((ModalSubmit.deferReply hp none s).2.1.isDeferred = true) ∧
    (ModalSubmit.getResponse (ModalSubmit.deferReply hp none s).2.1 =
      some (ModalSubmit.deferReply hp none s).1) ∧
    ((ModalSubmit.deferReply hp none s).1 =
      .deferredChannelMessageWithSource none) ∧
    (ContextMenu.deferReply none c =
      (.deferredChannelMessageWithSource none,
        some (.deferredChannelMessageWithSource none))) ∧
    (MessageComponent.deferReply none c =
      (.deferredChannelMessageWithSource none,
        some (.deferredChannelMessageWithSource none))) :=
  ⟨rfl, rfl, rfl, rfl, rfl⟩

namespace ModalSubmit

theorem getRoles_of_no_values (i : APIModalSubmitInteraction)
    (customId : String) (h : getSelectMenuValues i customId = none) :
    getRoles i customId = [] := by
  unfold getRoles
  rw [h]

theorem getUsers_of_no_values (i : APIModalSubmitInteraction)
    (customId : String) (h : getSelectMenuValues i customId = none) :
    getUsers i customId = [] := by
  unfold getUsers
  rw [h]

theorem getChannels_of_no_values (i : APIModalSubmitInteraction)
    (customId : String) (h : getSelectMenuValues i customId = none) :
    getChannels i customId = [] := by
  unfold getChannels
  rw [h]

theorem getComponentValue_of_absent (i : APIModalSubmitInteraction)
    (customId : String) (ht : getTextFieldValue i customId = none)
    (hs : getSelectMenuValues i customId = none) :
    getComponentValue i customId = none := by
  unfold getComponentValue
  rw [ht, hs]
  rfl

theorem getAttachment_of_no_value (i : APIModalSubmitInteraction)
    (customId : String) (h : getComponentValue i customId = none) :
    getAttachment i customId = none := by
  unfold getAttachment
  rw [h]

end ModalSubmit

/-- C4: the response capture cell is a single-slot, write-many/read-last
register: on each façade every valid acknowledgement call succeeds (no call
is rejected because a response was already captured), each call overwrites
the cell with its own response, and after any sequence of calls
`getResponse()` returns exactly the response produced by the last call. -/
theorem c4_capture_cell_last_write_wins (cmCalls : List CMCall) (cm : CMCall)
    (mcCalls : List MCCall) (mc : MCCall) (msCalls : List MSCall)
    (ms : MSCall) (hp : MSHelpers) (tok : String)
    (s0 : Option APIInteractionResponse) (t0 : MSState) :
    (∀ c s, ∃ r, CMCall.run c s = .ok (r, some r)) ∧
    (∃ r, CMCall.run cm (CMCall.runSeq cmCalls s0) = .ok (r, some r) ∧
      ContextMenu.getResponse (CMCall.runSeq (cmCalls ++ [cm]) s0) = some r) ∧
    (∀ c s, ∃ r, MCCall.run c s = .ok (r, some r)) ∧
    (∃ r, MCCall.run mc (MCCall.runSeq mcCalls s0) = .ok (r, some r) ∧
      MessageComponent.getResponse (MCCall.runSeq (mcCalls ++ [mc]) s0) =
        some r) ∧
    (∀ c s, ∃ r s' eff, MSCall.run hp tok c s = .ok (r, s', eff) ∧
      s'.capturedResponse = some r) ∧
    (∃ r s' eff,
      MSCall.run hp tok ms (MSCall.runSeq hp tok msCalls t0) =
        .ok (r, s', eff) ∧
      ModalSubmit.getResponse (MSCall.runSeq hp tok (msCalls ++ [ms]) t0) =
        some r) := by
  refine ⟨CMCall.cmRun_ok, ?_, MCCall.mcRun_ok, ?_, MSCall.msRun_ok hp tok, ?_⟩
  · obtain ⟨r, hr⟩ := CMCall.cmRun_ok cm (CMCall.runSeq cmCalls s0)
    refine ⟨r, hr, ?_⟩
    rw [CMCall.cmRunSeq_append]
    simp [CMCall.runSeq, hr, ContextMenu.getResponse]
  · obtain ⟨r, hr⟩ := MCCall.mcRun_ok mc (MCCall.runSeq mcCalls s0)
    refine ⟨r, hr, ?_⟩
    rw [MCCall.mcRunSeq_append]
    simp [MCCall.runSeq, hr, MessageComponent.getResponse]
  · obtain ⟨r, s', eff, hr, hc⟩ :=
      MSCall.msRun_ok hp tok ms (MSCall.runSeq hp tok msCalls t0)
    refine ⟨r, s', eff, hr, ?_⟩
    rw [MSCall.msRunSeq_append]
    simp [MSCall.runSeq, hr, ModalSubmit.getResponse, hc]

/-- C5 counterexample: with two text leaves sharing `custom_id` `"a"` in one
action row, the first in pre-order carrying `""` and the second `"x"`, the
pre-order first-match reference (modelled from the spec) yields `some ""`,
but `getTextFieldValue` returns `none` — not the value of the first
matching leaf — because every returned value passes a JavaScript
truthiness check. -/
theorem c5_counterexample_empty_first_match :
    specFirstText "a"
        [.actionRow [.textInput "a" "", .textInput "a" "x"]] = some "" ∧
    ModalSubmit.getTextFieldValue
        ⟨"t", ⟨[.actionRow [.textInput "a" "", .textInput "a" "x"]], none⟩⟩
        "a" = none := by
  exact ⟨by decide, by decide⟩

/-- C5 amended: provided every text leaf matching the queried `custom_id`
carries a non-empty value, `getTextFieldValue` returns the value of the
first matching leaf in the deterministic pre-order traversal (top-level
nodes in order, action-row children in order, label wrappers unwrapped);
`getSelectMenuValues` returns the values of the first matching selection
leaf in that traversal unconditionally.  Neither aggregates across
duplicate matches. -/
theorem c5_amended_first_preorder_match (i : APIModalSubmitInteraction)
    (customId : String)
    (h : textOkTop customId i.data.components = true) :
    ModalSubmit.getTextFieldValue i customId =
      specFirstText customId i.data.components ∧
    ModalSubmit.getSelectMenuValues i customId =
      specFirstSel customId i.data.components :=
  ⟨ModalSubmit.getTextFieldValueIn_of_textOk customId i.data.components h,
   ModalSubmit.getSelectMenuValuesIn_eq_spec customId i.data.components⟩

/-- C5 witness: the amended theorem applied to a concrete tree with two
matching leaves (both non-empty): the lookups return the first pre-order
match. -/
theorem c5_amended_witness :
    textOkTop "a"
      [TopComponent.actionRow [SubComponent.textInput "a" "hello",
        SubComponent.textInput "a" "world"]] = true ∧
    ModalSubmit.getTextFieldValue
        ⟨"t", ⟨[.actionRow [.textInput "a" "hello", .textInput "a" "world"]],
          none⟩⟩ "a" =
      specFirstText "a"
        [.actionRow [.textInput "a" "hello", .textInput "a" "world"]] :=
  ⟨by decide,
    (c5_amended_first_preorder_match
      ⟨"t", ⟨[.actionRow [.textInput "a" "hello", .textInput "a" "world"]],
        none⟩⟩ "a" (by decide)).1⟩

/-- C6: every resolver query is total: on an empty submitted-components
array, and likewise whenever the queried `customId` occurs nowhere in the
tree, each query returns the absent value (`none`, or `[]` for the plural
entity getters) — the embedded functions are total, so no exception is
possible. -/
theorem c6_resolver_queries_total (tok : String) (res : Option ResolvedData)
    (customId : String) (comps : List TopComponent)
    (h : mentionsTop customId comps = false) :
    (ModalSubmit.getTextFieldValue ⟨tok, ⟨[], res⟩⟩ customId = none ∧
     ModalSubmit.getSelectMenuValues ⟨tok, ⟨[], res⟩⟩ customId = none ∧
     ModalSubmit.getComponentValue ⟨tok, ⟨[], res⟩⟩ customId = none ∧
     ModalSubmit.getRoles ⟨tok, ⟨[], res⟩⟩ customId = [] ∧
     ModalSubmit.getRole ⟨tok, ⟨[], res⟩⟩ customId = none ∧
     ModalSubmit.getUsers ⟨tok, ⟨[], res⟩⟩ customId = [] ∧
     ModalSubmit.getUser ⟨tok, ⟨[], res⟩⟩ customId = none ∧
     ModalSubmit.getChannels ⟨tok, ⟨[], res⟩⟩ customId = [] ∧
     ModalSubmit.getChannel ⟨tok, ⟨[], res⟩⟩ customId = none ∧
     ModalSubmit.getAttachment ⟨tok, ⟨[], res⟩⟩ customId = none) ∧
    (ModalSubmit.getTextFieldValue ⟨tok, ⟨comps, res⟩⟩ customId = none ∧
     ModalSubmit.getSelectMenuValues ⟨tok, ⟨comps, res⟩⟩ customId = none ∧
     ModalSubmit.getComponentValue ⟨tok, ⟨comps, res⟩⟩ customId = none ∧
     ModalSubmit.getRoles ⟨tok, ⟨comps, res⟩⟩ customId = [] ∧
     ModalSubmit.getRole ⟨tok, ⟨comps, res⟩⟩ customId = none ∧
     ModalSubmit.getUsers ⟨tok, ⟨comps, res⟩⟩ customId = [] ∧
     ModalSubmit.getUser ⟨tok, ⟨comps, res⟩⟩ customId = none ∧
     ModalSubmit.getChannels ⟨tok, ⟨comps, res⟩⟩ customId = [] ∧
     ModalSubmit.getChannel ⟨tok, ⟨comps, res⟩⟩ customId = none ∧
     ModalSubmit.getAttachment ⟨tok, ⟨comps, res⟩⟩ customId = none) := by
  have main : ∀ cs : List TopComponent, mentionsTop customId cs = false →
      ModalSubmit.getTextFieldValue ⟨tok, ⟨cs, res⟩⟩ customId = none ∧
      ModalSubmit.getSelectMenuValues ⟨tok, ⟨cs, res⟩⟩ customId = none ∧
      ModalSubmit.getComponentValue ⟨tok, ⟨cs, res⟩⟩ customId = none ∧
      ModalSubmit.getRoles ⟨tok, ⟨cs, res⟩⟩ customId = [] ∧
      ModalSubmit.getRole ⟨tok, ⟨cs, res⟩⟩ customId = none ∧
      ModalSubmit.getUsers ⟨tok, ⟨cs, res⟩⟩ customId = [] ∧
      ModalSubmit.getUser ⟨tok, ⟨cs, res⟩⟩ customId = none ∧
      ModalSubmit.getChannels ⟨tok, ⟨cs, res⟩⟩ customId = [] ∧
      ModalSubmit.getChannel ⟨tok, ⟨cs, res⟩⟩ customId = none ∧
      ModalSubmit.getAttachment ⟨tok, ⟨cs, res⟩⟩ customId = none := by
    intro cs hcs
    have ht : ModalSubmit.getTextFieldValue ⟨tok, ⟨cs, res⟩⟩ customId = none :=
      ModalSubmit.getTextFieldValueIn_of_not_mentions customId cs hcs
    have hs : ModalSubmit.getSelectMenuValues ⟨tok, ⟨cs, res⟩⟩ customId = none :=
      ModalSubmit.getSelectMenuValuesIn_of_not_mentions customId cs hcs
    have hcv := ModalSubmit.getComponentValue_of_absent _ customId ht hs
    have hroles := ModalSubmit.getRoles_of_no_values _ customId hs
    have husers := ModalSubmit.getUsers_of_no_values _ customId hs
    have hchannels := ModalSubmit.getChannels_of_no_values _ customId hs
    refine ⟨ht, hs, hcv, hroles, ?_, husers, ?_, hchannels, ?_,
      ModalSubmit.getAttachment_of_no_value _ customId hcv⟩
    · unfold ModalSubmit.getRole
      rw [hroles]
      rfl
    · unfold ModalSubmit.getUser
      rw [husers]
      rfl
    · unfold ModalSubmit.getChannel
      rw [hchannels]
      rfl
  exact ⟨main [] rfl, main comps h⟩

/-- C6 witness: the theorem applied to a concrete tree that never mentions
the queried id. -/
theorem c6_witness :
    mentionsTop "missing" [TopComponent.actionRow
      [SubComponent.textInput "a" "hello"]] = false ∧
    ModalSubmit.getTextFieldValue
      ⟨"t", ⟨[.actionRow [.textInput "a" "hello"]], none⟩⟩ "missing" = none ∧
    ModalSubmit.getRoles
      ⟨"t", ⟨[.actionRow [.textInput "a" "hello"]], none⟩⟩ "missing" = [] :=
  ⟨by decide,
    (c6_resolver_queries_total "t" none "missing"
      [.actionRow [.textInput "a" "hello"]] (by decide)).2.1,
    (c6_resolver_queries_total "t" none "missing"
      [.actionRow [.textInput "a" "hello"]] (by decide)).2.2.2.2.1⟩

/-- C7: for a selection whose values are `[v1, v2]` and resolved entity maps
holding an entry for `v1` but none for `v2`, the plural getters return
exactly the one-element list with `v1`'s entity, preserving selection order
and silently dropping the unresolved identifier — for roles, users and
channels alike. -/
theorem c7_unresolved_ids_dropped (tok : String) (comps : List TopComponent)
    (customId v1 v2 : String)
    (rolesMap : List (String × APIRole)) (usersMap : List (String × APIUser))
    (membersMap : Option (List (String × APIGuildMember)))
    (channelsMap : List (String × APIChannel))
    (attachmentsMap : Option (List (String × APIAttachment)))
    (e : APIRole) (u : APIUser) (ch : APIChannel)
    (hsel : ModalSubmit.getSelectMenuValuesIn customId comps = some [v1, v2]) :
    (lookupA rolesMap v1 = some e → lookupA rolesMap v2 = none →
      ModalSubmit.getRoles
        ⟨tok, ⟨comps, some ⟨some rolesMap, some usersMap, membersMap,
          some channelsMap, attachmentsMap⟩⟩⟩ customId = [e]) ∧
    (lookupA usersMap v1 = some u → lookupA usersMap v2 = none →
      ModalSubmit.getUsers
        ⟨tok, ⟨comps, some ⟨some rolesMap, some usersMap, membersMap,
          some channelsMap, attachmentsMap⟩⟩⟩ customId =
        [⟨u, membersMap.bind (fun mm => lookupA mm v1)⟩]) ∧
    (lookupA channelsMap v1 = some ch → lookupA channelsMap v2 = none →
      ModalSubmit.getChannels
        ⟨tok, ⟨comps, some ⟨some rolesMap, some usersMap, membersMap,
          some channelsMap, attachmentsMap⟩⟩⟩ customId = [ch]) := by
  refine ⟨?_, ?_, ?_⟩
  · intro h1 h2
    unfold ModalSubmit.getRoles
    rw [show ModalSubmit.getSelectMenuValues
        ⟨tok, ⟨comps, some ⟨some rolesMap, some usersMap, membersMap,
          some channelsMap, attachmentsMap⟩⟩⟩ customId = some [v1, v2] from hsel]
    simp [List.filterMap_cons, h1, h2]
  · intro h1 h2
    unfold ModalSubmit.getUsers
    rw [show ModalSubmit.getSelectMenuValues
        ⟨tok, ⟨comps, some ⟨some rolesMap, some usersMap, membersMap,
          some channelsMap, attachmentsMap⟩⟩⟩ customId = some [v1, v2] from hsel]
    simp [List.filterMap_cons, h1, h2]
  · intro h1 h2
    unfold ModalSubmit.getChannels
    rw [show ModalSubmit.getSelectMenuValues
        ⟨tok, ⟨comps, some ⟨some rolesMap, some usersMap, membersMap,
          some channelsMap, attachmentsMap⟩⟩⟩ customId = some [v1, v2] from hsel]
    simp [List.filterMap_cons, h1, h2]

/-- C7 witness: a concrete selection `["r1", "r2"]` with only `r1` resolved
yields exactly the one-element entity lists. -/
theorem c7_witness :
    ModalSubmit.getRoles
      ⟨"t", ⟨[.labelTop (.selectMenu "b" ["r1", "r2"])],
        some ⟨some [("r1", ⟨1⟩)], some [("r1", ⟨2⟩)], none,
          some [("r1", ⟨3⟩)], none⟩⟩⟩ "b" = [⟨1⟩] ∧
    ModalSubmit.getUsers
      ⟨"t", ⟨[.labelTop (.selectMenu "b" ["r1", "r2"])],
        some ⟨some [("r1", ⟨1⟩)], some [("r1", ⟨2⟩)], none,
          some [("r1", ⟨3⟩)], none⟩⟩⟩ "b" = [⟨⟨2⟩, none⟩] ∧
    ModalSubmit.getChannels
      ⟨"t", ⟨[.labelTop (.selectMenu "b" ["r1", "r2"])],
        some ⟨some [("r1", ⟨1⟩)], some [("r1", ⟨2⟩)], none,
          some [("r1", ⟨3⟩)], none⟩⟩⟩ "b" = [⟨3⟩] := by
  have h := c7_unresolved_ids_dropped "t"
    [.labelTop (.selectMenu "b" ["r1", "r2"])] "b" "r1" "r2"
    [("r1", ⟨1⟩)] [("r1", ⟨2⟩)] none [("r1", ⟨3⟩)] none
    ⟨1⟩ ⟨2⟩ ⟨3⟩ (by decide)
  exact ⟨h.1 (by decide) (by decide), h.2.1 (by decide) (by decide),
    h.2.2 (by decide) (by decide)⟩

/-- C9: each singular getter returns the first resolved entity of the
selection under the queried `custom_id` — the entity of the first selected
identifier that resolves through the matching entity map — and the absent
value when the selection or the map is absent; `getAttachment` returns the
resolved attachment for the (string) component value, or absent. -/
theorem c9_singular_getters_first_resolved (i : APIModalSubmitInteraction)
    (customId : String) :
    (∀ vals rolesMap, ModalSubmit.getSelectMenuValues i customId = some vals →
      i.data.resolved.bind (·.roles) = some rolesMap →
      ModalSubmit.getRole i customId = firstResolved (lookupA rolesMap) vals) ∧
    (ModalSubmit.getSelectMenuValues i customId = none →
      ModalSubmit.getRole i customId = none) ∧
    (∀ vals usersMap, ModalSubmit.getSelectMenuValues i customId = some vals →
      i.data.resolved.bind (·.users) = some usersMap →
      ModalSubmit.getUser i customId =
        firstResolved (fun id =>
          match lookupA usersMap id with
          | some u =>
            some ⟨u, (i.data.resolved.bind (·.members)).bind
              (fun mm => lookupA mm id)⟩
          | none => none) vals) ∧
    (ModalSubmit.getSelectMenuValues i customId = none →
      ModalSubmit.getUser i customId = none) ∧
    (∀ vals channelsMap,
      ModalSubmit.getSelectMenuValues i customId = some vals →
      i.data.resolved.bind (·.channels) = some channelsMap →
      ModalSubmit.getChannel i customId =
        firstResolved (lookupA channelsMap) vals) ∧
    (ModalSubmit.getSelectMenuValues i customId = none →
      ModalSubmit.getChannel i customId = none) ∧
    (∀ v attachmentsMap,
      ModalSubmit.getComponentValue i customId = some (Sum.inl v) →
      v ≠ "" → i.data.resolved.bind (·.attachments) = some attachmentsMap →
      ModalSubmit.getAttachment i customId = lookupA attachmentsMap v) ∧
    (ModalSubmit.getComponentValue i customId = none →
      ModalSubmit.getAttachment i customId = none) := by
  refine ⟨?_, ?_, ?_, ?_, ?_, ?_, ?_,
    ModalSubmit.getAttachment_of_no_value i customId⟩
  · intro vals rolesMap h1 h2
    unfold ModalSubmit.getRole ModalSubmit.getRoles
    rw [h1, h2]
    exact head_filterMap_eq_firstResolved _ _
  · intro h
    unfold ModalSubmit.getRole
    rw [ModalSubmit.getRoles_of_no_values i customId h]
    rfl
  · intro vals usersMap h1 h2
    unfold ModalSubmit.getUser ModalSubmit.getUsers
    rw [h1, h2]
    exact head_filterMap_eq_firstResolved _ _
  · intro h
    unfold ModalSubmit.getUser
    rw [ModalSubmit.getUsers_of_no_values i customId h]
    rfl
  · intro vals channelsMap h1 h2
    unfold ModalSubmit.getChannel ModalSubmit.getChannels
    rw [h1, h2]
    exact head_filterMap_eq_firstResolved _ _
  · intro h
    unfold ModalSubmit.getChannel
    rw [ModalSubmit.getChannels_of_no_values i customId h]
    rfl
  · intro v attachmentsMap h1 hv h2
    unfold ModalSubmit.getAttachment
    rw [h1]
    show (if v = "" then none
      else (i.data.resolved.bind fun x => x.attachments).bind
        fun am => lookupA am v) = lookupA attachmentsMap v
    rw [if_neg hv, h2]
    rfl

/-- C9 witness: the theorem applied to a concrete selection in which the
first selected identifier does not resolve and the second does: the
singular getter skips to the first resolved entity. -/
theorem c9_witness :
    ModalSubmit.getRole
      ⟨"t", ⟨[.labelTop (.selectMenu "b" ["bad", "r2"])],
        some ⟨some [("r2", ⟨9⟩)], none, none, none, none⟩⟩⟩ "b" =
      firstResolved (lookupA [("r2", (⟨9⟩ : APIRole))]) ["bad", "r2"] :=
  (c9_singular_getters_first_resolved
    ⟨"t", ⟨[.labelTop (.selectMenu "b" ["bad", "r2"])],
      some ⟨some [("r2", ⟨9⟩)], none, none, none, none⟩⟩⟩ "b").1
    ["bad", "r2"] [("r2", ⟨9⟩)] (by decide) (by decide)

/-- C10: `getTextFieldValue` never returns the empty string; when every
text leaf matching the queried `custom_id` carries `""`, it returns the
absent value — so an empty-string text submission is indistinguishable
from an absent component — and `getComponentValue` falls through to the
select-menu lookup. -/
theorem c10_empty_text_indistinguishable (i : APIModalSubmitInteraction)
    (customId : String) :
    (ModalSubmit.getTextFieldValue i customId ≠ some "") ∧
    (textEmptyTop customId i.data.components = true →
      ModalSubmit.getTextFieldValue i customId = none ∧
      ModalSubmit.getComponentValue i customId =
        (ModalSubmit.getSelectMenuValues i customId).map Sum.inr) := by
  constructor
  · exact ModalSubmit.getTextFieldValueIn_ne_empty customId i.data.components
  · intro h
    have ht : ModalSubmit.getTextFieldValue i customId = none :=
      ModalSubmit.getTextFieldValueIn_of_textEmpty customId
        i.data.components h
    refine ⟨ht, ?_⟩
    unfold ModalSubmit.getComponentValue
    rw [ht]

/-- C10 witness: a tree whose only matching text leaf carries `""` (and a
select menu under the same id): the text lookup is absent and
`getComponentValue` falls through to the selection values. -/
theorem c10_witness :
    textEmptyTop "a"
      [TopComponent.actionRow [SubComponent.textInput "a" ""],
        TopComponent.labelTop (SubComponent.selectMenu "a" ["v"])] = true ∧
    ModalSubmit.getTextFieldValue
      ⟨"t", ⟨[.actionRow [.textInput "a" ""],
        .labelTop (.selectMenu "a" ["v"])], none⟩⟩ "a" = none ∧
    ModalSubmit.getComponentValue
      ⟨"t", ⟨[.actionRow [.textInput "a" ""],
        .labelTop (.selectMenu "a" ["v"])], none⟩⟩ "a" =
      (ModalSubmit.getSelectMenuValues
        ⟨"t", ⟨[.actionRow [.textInput "a" ""],
          .labelTop (.selectMenu "a" ["v"])], none⟩⟩ "a").map Sum.inr :=
  ⟨by decide,
    ((c10_empty_text_indistinguishable
      ⟨"t", ⟨[.actionRow [.textInput "a" ""],
        .labelTop (.selectMenu "a" ["v"])], none⟩⟩ "a").2 (by decide)).1,
    ((c10_empty_text_indistinguishable
      ⟨"t", ⟨[.actionRow [.textInput "a" ""],
        .labelTop (.selectMenu "a" ["v"])], none⟩⟩ "a").2 (by decide)).2⟩
